import Mathlib

/-!
Shallow embedding of the BikeSaferPA data pipeline (notebook
1_BikeSaferPA_data.ipynb): per-table field recoding, cross-field repair,
entity joins, missing-value handling and target derivation, together with
theorems settling the frozen claims about that pipeline.

Table cells are modelled as `Option Val` (a pandas cell is either missing
or holds an integer code or a string label).  Tables are lists of row
structures; column operations of the source become `List.map` of row
operations, dataframe merges become explicit list merges with the pandas
key-matching semantics (missing keys never match).  Only the fields the
claims touch are modelled; omitted fields are noted in comments.
-/

namespace BikeSaferPA

/-- Value stored in a non-missing table cell: an integer code or a string label. -/
inductive Val where
  | int : Int → Val
  | str : String → Val
deriving DecidableEq, Repr

/-- Table cell: `none` models a pandas missing value (NaN). -/
abbrev Cell := Option Val

/-- Numeric value of a decimal digit character, if it is one. -/
def digitVal (c : Char) : Option Nat :=
  if 48 ≤ c.toNat ∧ c.toNat ≤ 57 then some (c.toNat - 48) else none

/-- Value of a nonempty all-digit character list, missing otherwise. -/
def parseNatDigits : List Char → Option Nat
  | [] => none
  | [c] => digitVal c
  | c :: cs =>
    match digitVal c, parseNatDigits cs with
    | some d, some n => some (d * 10 ^ cs.length + n)
    | _, _ => none

/-- Embedding of pandas `pd.to_numeric(col, errors = coerce)`: integers pass
through, strings of decimal digits parse to their integer value, any
other string becomes missing (the raw code vocabulary of these tables
is non-negative integers, so digit strings are the only numeric
tokens). -/
def toNumeric (c : Cell) : Cell :=
  match c with
  | some (Val.str s) => (parseNatDigits s.data).map (fun n => Val.int (n : Int))
  | c => c

/-- Integer content of a cell, when it holds an integer. -/
def cellInt (c : Cell) : Option Int :=
  match c with
  | some (Val.int n) => some n
  | _ => none

/-- Embedding of pandas `col.fillna(v)` with a constant scalar `v`. -/
def fillCell (c : Cell) (v : Val) : Cell :=
  match c with
  | none => some v
  | c => c

/-- Embedding of pandas `a.fillna(b)` where `b` is another column of the
same row. -/
def fillFrom (a b : Cell) : Cell :=
  match a with
  | none => b
  | a => a

/-- Pandas elementwise equality of two cells: a missing value compares
unequal to everything, including another missing value. -/
def cellEqBool (a b : Cell) : Bool :=
  match a, b with
  | some x, some y => x = y
  | _, _ => false

/-- Replace an element at a list position, leaving the list unchanged when
the position is out of range.  This is the embedding of a positional
`df.at[i, col] = v` assignment (the raw tables carry the default
`0..n-1` integer index). -/
def updateAt {α : Type} : Nat → (α → α) → List α → List α
  | _, _, [] => []
  | 0, f, x :: xs => f x :: xs
  | n + 1, f, x :: xs => x :: updateAt n f xs

/-! ### Recode dictionaries

Each pandas `col.replace({...})` dictionary is transcribed as an
if-chain testing the cell against each raw key in turn; a cell matching
no key passes through unchanged, exactly as `replace` leaves
unrecognized values alone. -/

/-- Dictionary `{U: nan, 99: nan}` applied to UNIT_NUM and IMPACT_POINT of
the bicycles table. -/
def unitImpactClean (c : Cell) : Cell :=
  if c = some (Val.str "U") then none
  else if c = some (Val.int 99) then none
  else c

/-- Dictionary `{Y: 1, N: 0, U: nan}` for the bicycle indicator fields
(PC_HDLGHT_IND, PC_HLMT_IND, PC_REAR_RFLTR_IND). -/
def ynuMap (c : Cell) : Cell :=
  if c = some (Val.str "Y") then some (Val.int 1)
  else if c = some (Val.str "N") then some (Val.int 0)
  else if c = some (Val.str "U") then none
  else c

/-- GRADE recode dictionary of the bicycles table. -/
def gradeMap (c : Cell) : Cell :=
  if c = some (Val.int 1) then some (Val.str "level")
  else if c = some (Val.int 2) then some (Val.str "uphill")
  else if c = some (Val.int 3) then some (Val.str "downhill")
  else if c = some (Val.int 4) then some (Val.str "bottom_hill")
  else if c = some (Val.int 5) then some (Val.str "top_hill")
  else if c = some (Val.int 9) then none
  else c

/-- IMPACT_POINT to IMPACT_SIDE recode dictionary: 13-point clock encoding
collapsed to the 8-way relative-side encoding plus the
non-collision, top and undercarriage codes; 99 becomes missing. -/
def impactSideMap (c : Cell) : Cell :=
  if c = some (Val.int 0) then some (Val.str "non_collision")
  else if c = some (Val.int 13) then some (Val.str "top")
  else if c = some (Val.int 14) then some (Val.str "undercarriage")
  else if c = some (Val.int 11) then some (Val.str "front")
  else if c = some (Val.int 12) then some (Val.str "front")
  else if c = some (Val.int 1) then some (Val.str "front")
  else if c = some (Val.int 2) then some (Val.str "front_right")
  else if c = some (Val.int 3) then some (Val.str "right")
  else if c = some (Val.int 4) then some (Val.str "rear_right")
  else if c = some (Val.int 5) then some (Val.str "rear")
  else if c = some (Val.int 6) then some (Val.str "rear")
  else if c = some (Val.int 7) then some (Val.str "rear")
  else if c = some (Val.int 8) then some (Val.str "rear_left")
  else if c = some (Val.int 9) then some (Val.str "left")
  else if c = some (Val.int 10) then some (Val.str "front_left")
  else if c = some (Val.int 99) then none
  else c

/-- VEH_ROLE recode dictionary of the bicycles table. -/
def vehRoleMap (c : Cell) : Cell :=
  if c = some (Val.int 0) then some (Val.str "non_collision")
  else if c = some (Val.int 1) then some (Val.str "striking")
  else if c = some (Val.int 2) then some (Val.str "struck")
  else if c = some (Val.int 3) then some (Val.str "striking_struck")
  else c

/-- VEH_TYPE recode dictionary of the bicycles table: the two pedal-cycle
codes. -/
def vehTypeMap (c : Cell) : Cell :=
  if c = some (Val.int 20) then some (Val.str "bicycle")
  else if c = some (Val.int 21) then some (Val.str "other_pedalcycle")
  else c

/-- INJ_SEVERITY recode dictionary of the persons table. -/
def injSeverityMap (c : Cell) : Cell :=
  if c = some (Val.int 0) then some (Val.str "no_injury")
  else if c = some (Val.int 1) then some (Val.str "killed")
  else if c = some (Val.int 2) then some (Val.str "susp_serious_injury")
  else if c = some (Val.int 3) then some (Val.str "susp_minor_injury")
  else if c = some (Val.int 4) then some (Val.str "possible_injury")
  else if c = some (Val.int 8) then some (Val.str "unknown_injury")
  else if c = some (Val.int 9) then none
  else c

/-- Dictionary `{Y: 1, N: 0, U: nan, 0: 0, space: nan, R: nan, 9: nan, 97: nan}`
applied to SEX, TRANSPORTED and UNIT_NUM of the persons table (the
string keys "0" and "9" are distinct from integer codes). -/
def personFieldMap (c : Cell) : Cell :=
  if c = some (Val.str "Y") then some (Val.int 1)
  else if c = some (Val.str "N") then some (Val.int 0)
  else if c = some (Val.str "U") then none
  else if c = some (Val.str "0") then some (Val.int 0)
  else if c = some (Val.str " ") then none
  else if c = some (Val.str "R") then none
  else if c = some (Val.str "9") then none
  else if c = some (Val.int 97) then none
  else c

/-- ILLUMINATION recode dictionary of the crashes table. -/
def illuminationMap (c : Cell) : Cell :=
  if c = some (Val.int 1) then some (Val.str "daylight")
  else if c = some (Val.int 2) then some (Val.str "dark_unlit")
  else if c = some (Val.int 3) then some (Val.str "dark_lit")
  else if c = some (Val.int 4) then some (Val.str "dusk")
  else if c = some (Val.int 5) then some (Val.str "dawn")
  else if c = some (Val.int 6) then some (Val.str "dark_lit")
  else if c = some (Val.int 8) then some (Val.str "other")
  else if c = some (Val.int 9) then none
  else c

/-- ROAD_CONDITION recode dictionary of the crashes table. -/
def roadConditionMap (c : Cell) : Cell :=
  if c = some (Val.int 1) then some (Val.str "dry")
  else if c = some (Val.int 2) then some (Val.str "ice_frost")
  else if c = some (Val.int 3) then some (Val.str "mud_dirt_gravel")
  else if c = some (Val.int 4) then some (Val.str "oil")
  else if c = some (Val.int 5) then some (Val.str "sand")
  else if c = some (Val.int 6) then some (Val.str "slush")
  else if c = some (Val.int 7) then some (Val.str "snow")
  else if c = some (Val.int 8) then some (Val.str "water")
  else if c = some (Val.int 9) then some (Val.str "wet")
  else if c = some (Val.int 98) then some (Val.str "other")
  else if c = some (Val.int 0) then none
  else if c = some (Val.int 99) then none
  else c

/-- WEATHER label recode dictionary of the crashes table (applied after the
dual-field consolidation; 99 was already cleared to missing before it). -/
def weatherLabelMap (c : Cell) : Cell :=
  if c = some (Val.int 1) then some (Val.str "blowing_sand_soil_dirt")
  else if c = some (Val.int 2) then some (Val.str "blowing_snow")
  else if c = some (Val.int 3) then some (Val.str "clear")
  else if c = some (Val.int 4) then some (Val.str "cloudy")
  else if c = some (Val.int 5) then some (Val.str "fog_smog_smoke")
  else if c = some (Val.int 6) then some (Val.str "freezing_rain")
  else if c = some (Val.int 7) then some (Val.str "rain")
  else if c = some (Val.int 8) then some (Val.str "severe_crosswind")
  else if c = some (Val.int 9) then some (Val.str "sleet_hail")
  else if c = some (Val.int 10) then some (Val.str "snow")
  else if c = some (Val.int 98) then some (Val.str "other")
  else c

/-! ### Row structures and per-table recodes

Fields of the source tables not touched by any claim (for the bicycles
table: RDWY_ALIGNMENT, VEH_POSITION, VEH_MOVEMENT, PC_HDLGHT_IND,
PC_REAR_RFLTR_IND; for the persons table: PERSON_NUM, SEX, TRANSPORTED,
PERSON_TYPE, RESTRAINT_HELMET; for the crashes table: the temporal,
roadway-context and circumstance-flag columns and the vehicle-count
collapse) are omitted from the embedding. -/

/-- Row of the bicycles table.  The raw table has `impactSide := none`;
the recode cell creates that column. -/
structure BicycleRow where
  crn : Int
  unitNum : Cell
  vehType : Cell
  vehRole : Cell
  impactPoint : Cell
  impactSide : Cell
  grade : Cell
  pcHlmtInd : Cell
deriving DecidableEq, Repr

/-- Recode of one bicycles row, following the bicycles cell of the
notebook in source order: numeric coercion of the vehicle fields,
indicator recode, the U/99 cleanup of UNIT_NUM and IMPACT_POINT, the
GRADE dictionary, derivation of IMPACT_SIDE from the cleaned
IMPACT_POINT, the remaining dictionaries, and finally the fill of the
one missing UNIT_NUM with the first available unit and of missing
VEH_ROLE with non_collision. -/
def recodeBicycle (r : BicycleRow) : BicycleRow :=
  let vehType := toNumeric r.vehType
  let vehRole := toNumeric r.vehRole
  let pcHlmtInd := ynuMap r.pcHlmtInd
  let unitNum := unitImpactClean r.unitNum
  let impactPoint := unitImpactClean r.impactPoint
  let grade := gradeMap r.grade
  let impactSide := impactSideMap impactPoint
  let vehRole := vehRoleMap vehRole
  let vehType := vehTypeMap vehType
  let unitNum := fillCell unitNum (Val.int 1)
  let vehRole := fillCell vehRole (Val.str "non_collision")
  { r with unitNum := unitNum, vehType := vehType, vehRole := vehRole,
           impactPoint := impactPoint, impactSide := impactSide,
           grade := grade, pcHlmtInd := pcHlmtInd }

/-- The same recode with the initial `pd.to_numeric` coercion omitted:
only the replace dictionaries, the IMPACT_SIDE derivation and the
constant fills. -/
def recodeBicycleNoCoerce (r : BicycleRow) : BicycleRow :=
  let vehType := r.vehType
  let vehRole := r.vehRole
  let pcHlmtInd := ynuMap r.pcHlmtInd
  let unitNum := unitImpactClean r.unitNum
  let impactPoint := unitImpactClean r.impactPoint
  let grade := gradeMap r.grade
  let impactSide := impactSideMap impactPoint
  let vehRole := vehRoleMap vehRole
  let vehType := vehTypeMap vehType
  let unitNum := fillCell unitNum (Val.int 1)
  let vehRole := fillCell vehRole (Val.str "non_collision")
  { r with unitNum := unitNum, vehType := vehType, vehRole := vehRole,
           impactPoint := impactPoint, impactSide := impactSide,
           grade := grade, pcHlmtInd := pcHlmtInd }

/-- Row of the persons table (modelled fields only; ages are numeric in
the raw data, so AGE is carried as `Option Int`). -/
structure PersonRow where
  crn : Int
  unitNum : Cell
  injSeverity : Cell
  age : Option Int
deriving DecidableEq, Repr

/-- Recode of one persons row: numeric coercion of INJ_SEVERITY, the 99
sentinel of AGE, the shared dictionary on UNIT_NUM, and the
INJ_SEVERITY label dictionary. -/
def recodePerson (r : PersonRow) : PersonRow :=
  let injSeverity := toNumeric r.injSeverity
  let age := if r.age = some 99 then none else r.age
  let unitNum := personFieldMap r.unitNum
  let injSeverity := injSeverityMap injSeverity
  { r with unitNum := unitNum, injSeverity := injSeverity, age := age }

/-- Embedding of `persons.at[35557, UNIT_NUM] = 2`: the single manual
repair of the duplicated composite key, addressed by list position. -/
def repairUnitNum (t : List PersonRow) : List PersonRow :=
  updateAt 35557 (fun p => { p with unitNum := some (Val.int 2) }) t

/-- Full persons-table processing: rowwise recode, then the single
positional key repair. -/
def processPersons (t : List PersonRow) : List PersonRow :=
  repairUnitNum (t.map recodePerson)

/-! ### Crashes table -/

/-- Row of the crashes table (modelled fields; coordinates are carried as
rationals, the time fields as integers). -/
structure CrashRow where
  crn : Int
  county : Int
  municipality : Int
  weather1 : Cell
  weather2 : Cell
  illumination : Cell
  roadCondition : Cell
  hourOfDay : Option Int
  timeOfDay : Cell
  dispatchTm : Option Int
  arrivalTm : Option Int
  decLat : Option Rat
  decLong : Option Rat
deriving DecidableEq, Repr

/-- Consolidation of the two raw weather fields, as coded: fill missing
WEATHER1 from WEATHER2; clear WEATHER2 where the two columns compare
equal (pandas equality, so never on missing); where WEATHER1 is the
clear code 3 and WEATHER2 is not missing, take WEATHER2. -/
def consolidateWeather (w1 w2 : Cell) : Cell :=
  let w1 := fillFrom w1 w2
  let w2 := if cellEqBool w1 w2 then none else w2
  if w1 = some (Val.int 3) ∧ w2 ≠ none then w2 else w1

/-- Modelled from the spec: the three resolution steps of the
dual-field weather consolidation exactly as the spec words them, for
the refinement comparison with the coded version.  Step (1): if the
primary is missing, substitute the secondary.  Step (2): if the primary
equals the secondary after step 1, clear the secondary.  Step (3): if
the primary resolves to the clear code while the secondary holds a
non-missing value, prefer the secondary. -/
def specConsolidateWeather (primary secondary : Cell) : Cell :=
  let p := match primary with
    | none => secondary
    | p => p
  let s := if p = secondary then none else secondary
  if p = some (Val.int 3) ∧ s ≠ none then s else p

/-- Rowwise part of the crashes cell, in source order: numeric coercion
of the weather and time-of-day fields, the 9999 sentinel of the three
time fields, the 99/24 recode of HOUR_OF_DAY, the ILLUMINATION and
ROAD_CONDITION dictionaries, the 99 sentinel of the weather fields, the
weather consolidation, and the WEATHER label dictionary. -/
def recodeCrashRow (r : CrashRow) : CrashRow :=
  let weather1 := toNumeric r.weather1
  let weather2 := toNumeric r.weather2
  let timeOfDay := toNumeric r.timeOfDay
  let dispatchTm := if r.dispatchTm = some 9999 then none else r.dispatchTm
  let arrivalTm := if r.arrivalTm = some 9999 then none else r.arrivalTm
  let timeOfDay := if timeOfDay = some (Val.int 9999) then none else timeOfDay
  let hourOfDay :=
    if r.hourOfDay = some 99 then none
    else if r.hourOfDay = some 24 then some 0
    else r.hourOfDay
  let illumination := illuminationMap r.illumination
  let roadCondition := roadConditionMap r.roadCondition
  let weather1 := if weather1 = some (Val.int 99) then none else weather1
  let weather2 := if weather2 = some (Val.int 99) then none else weather2
  let weather := weatherLabelMap (consolidateWeather weather1 weather2)
  { r with weather1 := weather, weather2 := none,
           illumination := illumination, roadCondition := roadCondition,
           hourOfDay := hourOfDay, timeOfDay := timeOfDay,
           dispatchTm := dispatchTm, arrivalTm := arrivalTm }

/-- Embedding of the three positional coordinate fixes: row 24770 is
cleared to missing, rows 3087 and 24805 receive verified coordinates. -/
def fixCoordsAt (t : List CrashRow) : List CrashRow :=
  let t := updateAt 24770 (fun r => { r with decLat := none, decLong := none }) t
  let t := updateAt 3087
    (fun r => { r with decLat := some ((400081 : Rat) / 10000),
                       decLong := some ((-751923 : Rat) / 10000) }) t
  updateAt 24805
    (fun r => { r with decLat := some ((403322 : Rat) / 10000),
                       decLong := some ((-759278 : Rat) / 10000) }) t

/-- Mean of the non-missing values of a coordinate over the rows of the
table sharing the given key value (`x.mean()` of a pandas group);
missing when the group has no non-missing value. -/
def groupMean (t : List CrashRow) (key : CrashRow → Int)
    (get : CrashRow → Option Rat) (k : Int) : Option Rat :=
  let vs := (t.filter (fun r => key r == k)).filterMap get
  if vs.length = 0 then none else some (vs.sum / (vs.length : Rat))

/-- One pass of `groupby(area)[coord].transform(lambda x: x.fillna(x.mean()))`:
every row whose coordinate is missing receives the mean of its group,
computed over the whole table. -/
def fillCoordBy (key : CrashRow → Int) (get : CrashRow → Option Rat)
    (set : CrashRow → Option Rat → CrashRow) (t : List CrashRow) : List CrashRow :=
  t.map (fun r =>
    match get r with
    | some _ => r
    | none => set r (groupMean t key get (key r)))

/-- The four sequential group-mean coordinate fills of the source: DEC_LAT
by municipality then county, then DEC_LONG by municipality then county,
each pass seeing the table as left by the previous one. -/
def fillCoords (t : List CrashRow) : List CrashRow :=
  let t := fillCoordBy (fun r => r.municipality) (fun r => r.decLat)
    (fun r v => { r with decLat := v }) t
  let t := fillCoordBy (fun r => r.county) (fun r => r.decLat)
    (fun r v => { r with decLat := v }) t
  let t := fillCoordBy (fun r => r.municipality) (fun r => r.decLong)
    (fun r v => { r with decLong := v }) t
  fillCoordBy (fun r => r.county) (fun r => r.decLong)
    (fun r v => { r with decLong := v }) t

/-- First hour fill: `HOUR_OF_DAY.fillna(TIME_OF_DAY.floordiv(100))`. -/
def fillHourFromTOD (t : List CrashRow) : List CrashRow :=
  t.map (fun r =>
    match r.hourOfDay with
    | some h => { r with hourOfDay := some h }
    | none => { r with hourOfDay := (cellInt r.timeOfDay).map (fun x => Int.fdiv x 100) })

/-- Second hour fill: `HOUR_OF_DAY.fillna(DISPATCH_TM.floordiv(100))`. -/
def fillHourFromDispatch (t : List CrashRow) : List CrashRow :=
  t.map (fun r =>
    match r.hourOfDay with
    | some h => { r with hourOfDay := some h }
    | none => { r with hourOfDay := r.dispatchTm.map (fun x => Int.fdiv x 100) })

/-- Third hour fill: `HOUR_OF_DAY.fillna(ARRIVAL_TM.floordiv(100))`. -/
def fillHourFromArrival (t : List CrashRow) : List CrashRow :=
  t.map (fun r =>
    match r.hourOfDay with
    | some h => { r with hourOfDay := some h }
    | none => { r with hourOfDay := r.arrivalTm.map (fun x => Int.fdiv x 100) })

/-- The three-step hour fallback chain, in source order. -/
def fillHours (t : List CrashRow) : List CrashRow :=
  fillHourFromArrival (fillHourFromDispatch (fillHourFromTOD t))

/-- Value of the hour fallback chain on one row in isolation: the hour if
present, else the finer time of day, else dispatch time, else arrival
time, each integer-divided by 100. -/
def hourFillRow (r : CrashRow) : CrashRow :=
  { r with hourOfDay :=
      match r.hourOfDay with
      | some h => some h
      | none =>
        match (cellInt r.timeOfDay).map (fun x => Int.fdiv x 100) with
        | some h => some h
        | none =>
          match r.dispatchTm.map (fun x => Int.fdiv x 100) with
          | some h => some h
          | none => r.arrivalTm.map (fun x => Int.fdiv x 100) }

/-- Constant fill of the five missing ILLUMINATION values with daylight. -/
def fillIllumination (t : List CrashRow) : List CrashRow :=
  t.map (fun r => { r with illumination := fillCell r.illumination (Val.str "daylight") })

/-! ### Roadway table and the speed-limit merge -/

/-- Row of the roadway table (modelled fields). -/
structure RoadwayRow where
  crn : Int
  rdwyCounty : Int
  speedLimit : Option Int
deriving DecidableEq, Repr

/-- Roadway row after the speed-limit fill and the cast to integer. -/
structure RoadwaySL where
  crn : Int
  speedLimit : Int
deriving DecidableEq, Repr

/-- Number of occurrences of a value in a list. -/
def countOcc (l : List Int) (x : Int) : Nat :=
  (l.filter (fun y => y == x)).length

/-- First element of the pandas `mode()` of a list of integers: a most
frequent value, ties broken by taking the smallest (`mode()` returns
the modes sorted ascending); missing on the empty list, where
`mode()[0]` raises. -/
def modeOf (l : List Int) : Option Int :=
  l.dedup.foldl
    (fun acc c =>
      match acc with
      | none => some c
      | some b =>
        if countOcc l c > countOcc l b ∨ (countOcc l c = countOcc l b ∧ c < b)
        then some c else some b)
    none

/-- Mode of the non-missing speed limits of the county group of the given
key, computed over the whole roadway table. -/
def countyMode (t : List RoadwayRow) (k : Int) : Option Int :=
  modeOf ((t.filter (fun r => r.rdwyCounty == k)).filterMap (fun r => r.speedLimit))

/-- Embedding of the speed-limit fill
`roadway.groupby(RDWY_COUNTY)[SPEED_LIMIT].apply(lambda x: x.fillna(x.mode()[0])).astype(int)`:
every missing speed limit becomes the mode of its county group; the
whole step fails (pandas raises IndexError on `mode()[0]` of an empty
mode) when a missing value sits in a county group with no non-missing
value. -/
def processRoadway (t : List RoadwayRow) : Option (List RoadwaySL) :=
  t.mapM (fun r =>
    match r.speedLimit with
    | some v => some { crn := r.crn, speedLimit := v }
    | none => (countyMode t r.rdwyCounty).map (fun v => { crn := r.crn, speedLimit := v }))

/-- Minimum of a list of integers, missing on the empty list. -/
def listMin : List Int → Option Int
  | [] => none
  | x :: xs =>
    match listMin xs with
    | none => some x
    | some m => some (min x m)

/-- Speed limits of the roadway segments sharing the given CRN. -/
def crnSegs (rw : List RoadwaySL) (k : Int) : List Int :=
  (rw.filter (fun r => r.crn == k)).map (fun r => r.speedLimit)

/-- Minimum speed limit across the roadway segments sharing the given CRN
(the per-group value of `roadway.groupby(CRN).min().SPEED_LIMIT`);
missing when the crash has no roadway segment. -/
def crnMin (rw : List RoadwaySL) (k : Int) : Option Int :=
  listMin (crnSegs rw k)

/-- The per-CRN aggregate table `roadway.groupby(CRN).min().SPEED_LIMIT`:
one `(CRN, minimum speed limit)` pair per distinct CRN of the roadway
table. -/
def roadwayAgg (rw : List RoadwaySL) : List (Int × Int) :=
  ((rw.map (fun r => r.crn)).dedup).filterMap
    (fun k => (crnMin rw k).map (fun m => (k, m)))

/-- Crash row of the exported crashes table: consolidated WEATHER, the
merged SPEED_LIMIT, and with DISPATCH_TM and ARRIVAL_TM dropped. -/
structure CrashFinal where
  crn : Int
  county : Int
  municipality : Int
  weather : Cell
  illumination : Cell
  roadCondition : Cell
  hourOfDay : Option Int
  decLat : Option Rat
  decLong : Option Rat
  speedLimit : Option Int
deriving DecidableEq, Repr

/-- Projection of a processed crash row to the exported shape, attaching a
speed-limit value (the consolidated weather sits in `weather1`). -/
def finalizeCrash (r : CrashRow) (sl : Option Int) : CrashFinal :=
  { crn := r.crn, county := r.county, municipality := r.municipality,
    weather := r.weather1, illumination := r.illumination,
    roadCondition := r.roadCondition, hourOfDay := r.hourOfDay,
    decLat := r.decLat, decLong := r.decLong, speedLimit := sl }

/-- Pandas left merge of the crashes table with a keyed right table on
CRN: every crash row is emitted once per matching right row, or once
with a missing value when no right row matches. -/
def leftMergeSL (t : List CrashRow) (right : List (Int × Int)) : List CrashFinal :=
  t.flatMap (fun c =>
    let ms := right.filter (fun p => p.1 == c.crn)
    if ms.isEmpty then [finalizeCrash c none]
    else ms.map (fun p => finalizeCrash c (some p.2)))

/-- Full crashes-table processing, in source order: rowwise recode,
positional coordinate fixes, group-mean coordinate fills, the hour
fallback chain, the daylight fill of ILLUMINATION, drop of the two raw
time columns, and the left merge of the per-CRN minimum speed limit. -/
def processCrashes (t : List CrashRow) (rw : List RoadwaySL) : List CrashFinal :=
  leftMergeSL (fillIllumination (fillHours (fillCoords (fixCoordsAt (t.map recodeCrashRow))))) (roadwayAgg rw)

/-! ### Cyclist entity join -/

/-- Row after `persons[cols].merge(bicycles, on = [CRN, UNIT_NUM], how = left)`:
person fields plus the inherited bicycle fields (missing when no
bicycle matched). -/
structure PB where
  crn : Int
  unitNum : Cell
  injSeverity : Cell
  age : Option Int
  vehType : Cell
  vehRole : Cell
  impactSide : Cell
  grade : Cell
  pcHlmtInd : Cell
deriving DecidableEq, Repr

/-- Build one merged row from a person row and the inherited bicycle
fields. -/
def mkPB (p : PersonRow) (vt vr isd g hel : Cell) : PB :=
  { crn := p.crn, unitNum := p.unitNum, injSeverity := p.injSeverity,
    age := p.age, vehType := vt, vehRole := vr, impactSide := isd,
    grade := g, pcHlmtInd := hel }

/-- Pandas left merge of the persons table with the bicycles table on the
composite key `(CRN, UNIT_NUM)`.  A missing UNIT_NUM on either side
never matches (pandas merge keys treat NaN as unequal to everything);
a person with no matching bicycle keeps missing bicycle fields; a
person with several matching bicycles is emitted once per match. -/
def leftMergePB (ps : List PersonRow) (bs : List BicycleRow) : List PB :=
  ps.flatMap (fun p =>
    let ms := bs.filter (fun b => b.crn == p.crn && cellEqBool p.unitNum b.unitNum)
    if ms.isEmpty then [mkPB p none none none none none]
    else ms.map (fun b => mkPB p b.vehType b.vehRole b.impactSide b.grade b.pcHlmtInd))

/-- Row after the crash merge, still carrying the VEH_TYPE discriminator
(dropped only afterwards).  Crash-derived fields are missing when no
crash matched the CRN. -/
structure PBC where
  crn : Int
  unitNum : Cell
  injSeverity : Cell
  age : Option Int
  vehType : Cell
  vehRole : Cell
  impactSide : Cell
  grade : Cell
  pcHlmtInd : Cell
  county : Option Int
  municipality : Option Int
  hourOfDay : Option Int
  illumination : Cell
  weather : Cell
  roadCondition : Cell
  speedLimit : Option Int
deriving DecidableEq, Repr

/-- Build one merged row from a person-bicycle row and the inherited
crash fields. -/
def mkPBC (x : PB) (county municipality : Option Int) (hourOfDay : Option Int)
    (ill wea rc : Cell) (sl : Option Int) : PBC :=
  { crn := x.crn, unitNum := x.unitNum, injSeverity := x.injSeverity,
    age := x.age, vehType := x.vehType, vehRole := x.vehRole,
    impactSide := x.impactSide, grade := x.grade, pcHlmtInd := x.pcHlmtInd,
    county := county, municipality := municipality, hourOfDay := hourOfDay,
    illumination := ill, weather := wea, roadCondition := rc, speedLimit := sl }

/-- Pandas left merge of the person-bicycle rows with the processed
crashes table on CRN. -/
def leftMergeCR (xs : List PB) (cs : List CrashFinal) : List PBC :=
  xs.flatMap (fun x =>
    let ms := cs.filter (fun c => c.crn == x.crn)
    if ms.isEmpty then [mkPBC x none none none none none none none]
    else ms.map (fun c =>
      mkPBC x (some c.county) (some c.municipality) c.hourOfDay
        c.illumination c.weather c.roadCondition c.speedLimit))

/-- Row of the final cyclists entity: VEH_TYPE dropped, the two derived
columns attached. -/
structure CyclistRow where
  crn : Int
  unitNum : Cell
  injSeverity : Cell
  age : Option Int
  vehRole : Cell
  impactSide : Cell
  grade : Cell
  pcHlmtInd : Cell
  county : Option Int
  municipality : Option Int
  hourOfDay : Option Int
  illumination : Cell
  weather : Cell
  roadCondition : Cell
  speedLimit : Option Int
  seriousOrFatality : Int
  ageBins : String
deriving DecidableEq, Repr

/-- The weather and road-condition cross fills and the two
unknown-category fills of the cyclists cell, in source order.  The
source also fills RESTRAINT_HELMET and VEH_POSITION with unknown;
those fields are not modelled. -/
def resolveRow (x : PBC) : PBC :=
  let weather :=
    if x.roadCondition = some (Val.str "dry") ∧ x.weather = none
    then some (Val.str "clear") else x.weather
  let roadCondition :=
    if weather = some (Val.str "rain") ∧ x.roadCondition = none
    then some (Val.str "wet") else x.roadCondition
  let impactSide := fillCell x.impactSide (Val.str "unknown")
  let grade := fillCell x.grade (Val.str "unknown")
  { x with weather := weather, roadCondition := roadCondition,
           impactSide := impactSide, grade := grade }

/-- The target flag
`INJ_SEVERITY.apply(lambda x: 1 if x in [killed, susp_serious_injury] else 0)`:
1 exactly on the two serious labels, 0 on everything else including a
missing value. -/
def seriousOrFatalityOf (c : Cell) : Int :=
  match c with
  | some (Val.str s) => if s = "killed" ∨ s = "susp_serious_injury" then 1 else 0
  | _ => 0

/-- The interval of `pd.cut(age, bins = range(0, 101, 10))` assigned to an
age: the decade interval, left-open right-closed, for ages in (0, 100];
no interval for a missing or out-of-range age. -/
def ageCut (a : Option Int) : Option (Int × Int) :=
  match a with
  | none => none
  | some x =>
    if 0 < x ∧ x ≤ 100
    then some (10 * ((x - 1) / 10), 10 * ((x - 1) / 10) + 10)
    else none

/-- String rendering of `astype(str)` applied to the cut column: an
interval renders as its pandas form, and a missing entry renders as the
literal string nan. -/
def intervalStr : Option (Int × Int) → String
  | some (lo, hi) => "(" ++ toString lo ++ ", " ++ toString hi ++ "]"
  | none => "nan"

/-- The AGE_BINS column: `pd.cut(AGE, bins = range(0, 101, 10)).astype(str)`. -/
def ageBinsOf (a : Option Int) : String :=
  intervalStr (ageCut a)

/-- Modelled from the spec: the age-bin contract as the spec words it,
for comparison with the coded column — a missing age or an age outside
the range produces a null/absent bin value, not a non-null
placeholder. -/
def specAgeBins (a : Option Int) : Option String :=
  (ageCut a).map intervalStr

/-- Drop of the VEH_TYPE discriminator and derivation of the two target
columns from the resolved row. -/
def deriveRow (x : PBC) : CyclistRow :=
  { crn := x.crn, unitNum := x.unitNum, injSeverity := x.injSeverity,
    age := x.age, vehRole := x.vehRole, impactSide := x.impactSide,
    grade := x.grade, pcHlmtInd := x.pcHlmtInd, county := x.county,
    municipality := x.municipality, hourOfDay := x.hourOfDay,
    illumination := x.illumination, weather := x.weather,
    roadCondition := x.roadCondition, speedLimit := x.speedLimit,
    seriousOrFatality := seriousOrFatalityOf x.injSeverity,
    ageBins := ageBinsOf x.age }

/-- Construction of the cyclists entity from the processed tables: left
merge of persons with bicycles on `(CRN, UNIT_NUM)`, restriction to the
rows that inherited a non-missing VEH_TYPE, left merge of the crash
columns on CRN, drop of VEH_TYPE, cross-field resolution and target
derivation. -/
def buildCyclists (ps : List PersonRow) (bs : List BicycleRow)
    (cs : List CrashFinal) : List CyclistRow :=
  let pb := (leftMergePB ps bs).filter (fun x => x.vehType.isSome)
  (leftMergeCR pb cs).map (fun x => deriveRow (resolveRow x))

/-- The whole pipeline from the four raw tables to the two exported
artifacts; fails exactly where the source raises (the speed-limit mode
fill on a county group with no non-missing value). -/
def pipeline (bs : List BicycleRow) (ps : List PersonRow) (cs : List CrashRow)
    (rs : List RoadwayRow) : Option (List CyclistRow × List CrashFinal) :=
  (processRoadway rs).map (fun rw =>
    let crashes := processCrashes cs rw
    (buildCyclists (processPersons ps) (bs.map recodeBicycle) crashes, crashes))

/-! ### Helper lemmas -/

theorem updateAt_getElem?_ne {α : Type} (n : Nat) (f : α → α) (l : List α)
    (i : Nat) (h : i ≠ n) : (updateAt n f l)[i]? = l[i]? := by
  induction l generalizing n i with
  | nil => simp [updateAt]
  | cons x xs ih =>
    cases n with
    | zero =>
      cases i with
      | zero => exact absurd rfl h
      | succ j => simp [updateAt]
    | succ m =>
      cases i with
      | zero => simp [updateAt]
      | succ j =>
        simp only [updateAt, List.getElem?_cons_succ]
        exact ih m j (fun hc => h (by simp [hc]))

theorem updateAt_getElem?_eq {α : Type} (n : Nat) (f : α → α) (l : List α) :
    (updateAt n f l)[n]? = (l[n]?).map f := by
  induction l generalizing n with
  | nil => simp [updateAt]
  | cons x xs ih =>
    cases n with
    | zero => simp [updateAt]
    | succ m => simpa [updateAt] using ih m

theorem fillCell_ne_none (c : Cell) (v : Val) : fillCell c v ≠ none := by
  cases c <;> simp [fillCell]

/-! Idempotence facts about the replace dictionaries: a value that has
already been through a dictionary is never changed by a second pass,
because the produced labels coincide with no raw key. -/

theorem unitImpactClean_idem (c : Cell) :
    unitImpactClean (unitImpactClean c) = unitImpactClean c := by
  unfold unitImpactClean
  split_ifs <;> simp_all

theorem ynuMap_idem (c : Cell) : ynuMap (ynuMap c) = ynuMap c := by
  unfold ynuMap
  split_ifs <;> simp_all

theorem gradeMap_idem (c : Cell) : gradeMap (gradeMap c) = gradeMap c := by
  by_cases k1 : c = some (Val.int 1)
  · subst k1; decide
  by_cases k2 : c = some (Val.int 2)
  · subst k2; decide
  by_cases k3 : c = some (Val.int 3)
  · subst k3; decide
  by_cases k4 : c = some (Val.int 4)
  · subst k4; decide
  by_cases k5 : c = some (Val.int 5)
  · subst k5; decide
  by_cases k9 : c = some (Val.int 9)
  · subst k9; decide
  have h : gradeMap c = c := by
    unfold gradeMap
    rw [if_neg k1, if_neg k2, if_neg k3, if_neg k4, if_neg k5, if_neg k9]
  rw [h, h]

theorem vehTypeMap_idem (c : Cell) : vehTypeMap (vehTypeMap c) = vehTypeMap c := by
  unfold vehTypeMap
  split_ifs <;> simp_all

theorem unitNum_clean_fill_idem (c : Cell) :
    fillCell (unitImpactClean (fillCell (unitImpactClean c) (Val.int 1))) (Val.int 1) =
      fillCell (unitImpactClean c) (Val.int 1) := by
  by_cases h1 : c = some (Val.str "U")
  · subst h1; decide
  by_cases h2 : c = some (Val.int 99)
  · subst h2; decide
  have hu : unitImpactClean c = c := by
    unfold unitImpactClean; rw [if_neg h1, if_neg h2]
  rcases c with _ | v
  · decide
  · rw [hu]
    have hfill : fillCell (some v) (Val.int 1) = some v := rfl
    rw [hfill, hu, hfill]

theorem vehRole_map_fill_idem (c : Cell) :
    fillCell (vehRoleMap (fillCell (vehRoleMap c) (Val.str "non_collision")))
        (Val.str "non_collision") =
      fillCell (vehRoleMap c) (Val.str "non_collision") := by
  by_cases h0 : c = some (Val.int 0)
  · subst h0; decide
  by_cases h1 : c = some (Val.int 1)
  · subst h1; decide
  by_cases h2 : c = some (Val.int 2)
  · subst h2; decide
  by_cases h3 : c = some (Val.int 3)
  · subst h3; decide
  have hmap : vehRoleMap c = c := by
    unfold vehRoleMap; rw [if_neg h0, if_neg h1, if_neg h2, if_neg h3]
  rcases c with _ | v
  · decide
  · rw [hmap]
    have hfill : fillCell (some v) (Val.str "non_collision") = some v := rfl
    rw [hfill, hmap, hfill]

/-! ### Concrete fixtures used by witnesses and counterexamples -/

/-- A raw bicycles table with one pedal cycle. -/
def Wbicycles : List BicycleRow :=
  [{ crn := 1, unitNum := some (Val.int 1), vehType := some (Val.int 20),
     vehRole := some (Val.int 1), impactPoint := some (Val.int 12),
     impactSide := none, grade := some (Val.int 9), pcHlmtInd := some (Val.str "N") }]

/-- A raw persons table with one killed cyclist aged 34. -/
def Wpersons : List PersonRow :=
  [{ crn := 1, unitNum := some (Val.int 1), injSeverity := some (Val.int 1),
     age := some 34 }]

/-- A raw crashes table with one crash: clear primary weather beside rain
in the secondary, the missing-illumination sentinel, a missing hour
recoverable from the time of day, and missing coordinates. -/
def Wcrashes : List CrashRow :=
  [{ crn := 1, county := 1, municipality := 1,
     weather1 := some (Val.int 3), weather2 := some (Val.int 7),
     illumination := some (Val.int 9), roadCondition := some (Val.int 1),
     hourOfDay := some 99, timeOfDay := some (Val.int 1430),
     dispatchTm := none, arrivalTm := none, decLat := none, decLong := none }]

/-- A raw roadway table: two segments of the same crash with speed limits
25 and 35. -/
def Wroadway : List RoadwayRow :=
  [{ crn := 1, rdwyCounty := 1, speedLimit := some 25 },
   { crn := 1, rdwyCounty := 1, speedLimit := some 35 }]

/-- The processed roadway table of `Wroadway`. -/
def WroadSL : List RoadwaySL :=
  [{ crn := 1, speedLimit := 25 }, { crn := 1, speedLimit := 35 }]

/-- The single cyclist row the pipeline produces from the fixtures. -/
def Wcyclist : CyclistRow :=
  { crn := 1, unitNum := some (Val.int 1), injSeverity := some (Val.str "killed"),
    age := some 34, vehRole := some (Val.str "striking"),
    impactSide := some (Val.str "front"), grade := some (Val.str "unknown"),
    pcHlmtInd := some (Val.int 0), county := some 1, municipality := some 1,
    hourOfDay := some 14, illumination := some (Val.str "daylight"),
    weather := some (Val.str "rain"), roadCondition := some (Val.str "dry"),
    speedLimit := some 25, seriousOrFatality := 1, ageBins := "(30, 40]" }

/-- A raw bicycle row whose fields all carry recodable raw codes. -/
def Wb9 : BicycleRow :=
  { crn := 1, unitNum := some (Val.int 1), vehType := some (Val.int 20),
    vehRole := some (Val.int 1), impactPoint := some (Val.int 12),
    impactSide := none, grade := some (Val.int 1), pcHlmtInd := some (Val.str "Y") }

/-- Crash table whose first row lacks a latitude while its municipality
neighbour has latitude 10. -/
def WcoordA : List CrashRow :=
  [{ crn := 1, county := 1, municipality := 1, weather1 := none, weather2 := none,
     illumination := none, roadCondition := none, hourOfDay := none,
     timeOfDay := none, dispatchTm := none, arrivalTm := none,
     decLat := none, decLong := some 5 },
   { crn := 2, county := 1, municipality := 1, weather1 := none, weather2 := none,
     illumination := none, roadCondition := none, hourOfDay := none,
     timeOfDay := none, dispatchTm := none, arrivalTm := none,
     decLat := some 10, decLong := some 5 }]

/-- The same table as `WcoordA` except that the neighbour row carries
latitude 20; the first rows of the two tables are identical. -/
def WcoordB : List CrashRow :=
  [{ crn := 1, county := 1, municipality := 1, weather1 := none, weather2 := none,
     illumination := none, roadCondition := none, hourOfDay := none,
     timeOfDay := none, dispatchTm := none, arrivalTm := none,
     decLat := none, decLong := some 5 },
   { crn := 2, county := 1, municipality := 1, weather1 := none, weather2 := none,
     illumination := none, roadCondition := none, hourOfDay := none,
     timeOfDay := none, dispatchTm := none, arrivalTm := none,
     decLat := some 20, decLong := some 5 }]

/-- Roadway table whose first row lacks a speed limit while its county
neighbour carries 25. -/
def WrdA : List RoadwayRow :=
  [{ crn := 1, rdwyCounty := 1, speedLimit := none },
   { crn := 2, rdwyCounty := 1, speedLimit := some 25 }]

/-- The same table as `WrdA` except that the neighbour carries 35; the
first rows of the two tables are identical. -/
def WrdB : List RoadwayRow :=
  [{ crn := 1, rdwyCounty := 1, speedLimit := none },
   { crn := 2, rdwyCounty := 1, speedLimit := some 35 }]

/-- A persons table with two raw rows colliding on the composite key
`(CRN, UNIT_NUM) = (1, 1)` — a collision that is not the known
pre-identified exception (which sits at row position 35557). -/
def WcollidePersons : List PersonRow :=
  [{ crn := 1, unitNum := some (Val.int 1), injSeverity := some (Val.int 1), age := some 30 },
   { crn := 1, unitNum := some (Val.int 1), injSeverity := some (Val.int 0), age := some 40 }]

/-- A person-bicycle-crash row whose age is missing. -/
def WmidNoAge : PBC :=
  { crn := 2, unitNum := some (Val.int 1), injSeverity := none, age := none,
    vehType := some (Val.str "bicycle"), vehRole := none, impactSide := none,
    grade := none, pcHlmtInd := none, county := none, municipality := none,
    hourOfDay := none, illumination := none, weather := none,
    roadCondition := none, speedLimit := none }

/-! ### Claim theorems -/

/-- Claim C8 (confirmed): the impact-point recode maps the 13-point clock
encoding to the 8-way relative-side encoding via a fixed lookup: in the
recoded bicycles table IMPACT_SIDE is exactly the lookup applied to the
cleaned IMPACT_POINT, and on raw codes the composite sends 11, 12 and 1
to front, 0 to non_collision, 13 to top, 14 to undercarriage, and the
sentinel 99 to missing. -/
theorem impact_side_fixed_lookup :
    (∀ r : BicycleRow, (recodeBicycle r).impactSide = impactSideMap (unitImpactClean r.impactPoint)) ∧
    impactSideMap (unitImpactClean (some (Val.int 11))) = some (Val.str "front") ∧
    impactSideMap (unitImpactClean (some (Val.int 12))) = some (Val.str "front") ∧
    impactSideMap (unitImpactClean (some (Val.int 1))) = some (Val.str "front") ∧
    impactSideMap (unitImpactClean (some (Val.int 0))) = some (Val.str "non_collision") ∧
    impactSideMap (unitImpactClean (some (Val.int 13))) = some (Val.str "top") ∧
    impactSideMap (unitImpactClean (some (Val.int 14))) = some (Val.str "undercarriage") ∧
    impactSideMap (unitImpactClean (some (Val.int 99))) = none := by
  refine ⟨fun r => rfl, ?_, ?_, ?_, ?_, ?_, ?_, ?_⟩ <;> decide

/-- Claim C9 (counterexample): the full per-table recode, including the
initial numeric coercion, is not idempotent.  On a row whose raw
VEH_TYPE is the code 20, one application recodes it to the label
bicycle, and a second application coerces that label to missing (and
fills the coerced-away VEH_ROLE label with non_collision), so the
twice-recoded table differs from the once-recoded one. -/
theorem recode_not_idempotent :
    recodeBicycle (recodeBicycle Wb9) ≠ recodeBicycle Wb9 ∧
    (recodeBicycle Wb9).vehType = some (Val.str "bicycle") ∧
    (recodeBicycle (recodeBicycle Wb9)).vehType = none := by
  refine ⟨?_, ?_, ?_⟩ <;> decide

/-- Claim C9 (amended): the replace-dictionary part of the recode is
idempotent — applying the recode without the initial numeric coercion
to an already-recoded row changes nothing, because recoded labels match
no raw key — but the full recode is not, since the coercion nulls the
string labels of the coerced fields (see the counterexample). -/
theorem recode_replace_only_idempotent (r : BicycleRow) :
    recodeBicycleNoCoerce (recodeBicycle r) = recodeBicycle r := by
  simp [recodeBicycle, recodeBicycleNoCoerce, unitImpactClean_idem,
    unitNum_clean_fill_idem, vehTypeMap_idem, vehRole_map_fill_idem,
    gradeMap_idem, ynuMap_idem]

/-- Claim C5 (counterexample): the AGE_BINS value of a row with missing
age is the non-null string nan — the `astype(str)` cast renders the
absent interval as a string placeholder — whereas the claim, as the
spec words it, demands a null/absent bin value. -/
theorem age_bins_missing_is_nan_string :
    (deriveRow WmidNoAge).ageBins = "nan" ∧ specAgeBins none = none := by
  refine ⟨?_, ?_⟩ <;> decide

/-- Claim C5 (amended): AGE_BINS buckets age into fixed-width decade bins
over the range 0 to 100: in every final cyclist row AGE_BINS is the
binning of the AGE field, a person aged 34 gets the bin string
"(30, 40]", and a missing age or an age outside the range produces the
non-null placeholder string nan (not an error and not a null). -/
theorem age_bins_decade_bucketing (ps : List PersonRow) (bs : List BicycleRow)
    (cs : List CrashFinal) (r : CyclistRow) (h : r ∈ buildCyclists ps bs cs)
    (a : Option Int) (ha : a = none ∨ ∃ x, a = some x ∧ (x ≤ 0 ∨ 100 < x)) :
    r.ageBins = ageBinsOf r.age ∧ ageBinsOf a = "nan" ∧
    ageBinsOf (some 34) = "(30, 40]" := by
  refine ⟨?_, ?_, by decide⟩
  · simp only [buildCyclists, List.mem_map] at h
    obtain ⟨x, _, rfl⟩ := h
    rfl
  · rcases ha with rfl | ⟨x, rfl, hx⟩
    · rfl
    · have : ¬(0 < x ∧ x ≤ 100) := by
        rcases hx with hx | hx <;> omega
      simp [ageBinsOf, ageCut, this, intervalStr]

/-- Witness for the amended claim C5 at the concrete fixtures: the
fixture cyclist is in the built table and the out-of-range input is
missing. -/
theorem age_bins_decade_bucketing_witness :
    (Wcyclist ∈ buildCyclists (processPersons Wpersons) (Wbicycles.map recodeBicycle)
        (processCrashes Wcrashes WroadSL) ∧
      ((none : Option Int) = none ∨ ∃ x, (none : Option Int) = some x ∧ (x ≤ 0 ∨ 100 < x))) ∧
    (Wcyclist.ageBins = ageBinsOf Wcyclist.age ∧ ageBinsOf (none : Option Int) = "nan" ∧
      ageBinsOf (some 34) = "(30, 40]") :=
  ⟨⟨by decide, Or.inl rfl⟩,
    age_bins_decade_bucketing (processPersons Wpersons) (Wbicycles.map recodeBicycle)
      (processCrashes Wcrashes WroadSL) Wcyclist (by decide) none (Or.inl rfl)⟩

/-- Claim C6 (confirmed): the coded consolidation of the two weather
fields agrees everywhere with the three ordered steps exactly as the
spec words them — fill the missing primary from the secondary, clear a
secondary equal to the primary, and prefer a non-missing secondary over
a primary resolving to the clear code — and the processed crash row
carries no secondary weather value (the column is dropped; the exported
crash shape has no WEATHER2 field at all). -/
theorem weather_consolidation_three_steps (w1 w2 : Cell) :
    consolidateWeather w1 w2 = specConsolidateWeather w1 w2 ∧
    (∀ r : CrashRow, (recodeCrashRow r).weather2 = none) := by
  refine ⟨?_, fun r => rfl⟩
  rcases w1 with _ | v1 <;> rcases w2 with _ | v2 <;>
    simp [consolidateWeather, specConsolidateWeather, fillFrom, cellEqBool]

/-- Claim C2 (counterexample): the coordinate fill applied before export
is not record-local.  The tables `WcoordA` and `WcoordB` have identical
first rows, yet the group-mean fill gives their first rows different
latitudes — each receives the municipality mean, a statistic computed
over the full dataset. -/
theorem coordinate_fill_not_record_local :
    WcoordA[0]? = WcoordB[0]? ∧
    (fillCoords WcoordA).map (fun r => r.decLat) = [some 10, some 10] ∧
    (fillCoords WcoordB).map (fun r => r.decLat) = [some 20, some 20] := by
  refine ⟨rfl, ?_, ?_⟩ <;>
    simp [fillCoords, fillCoordBy, groupMean, WcoordA, WcoordB,
      List.filter, List.filterMap]

/-- Claim C2 (amended): the hour-of-day fallback fills are record-local —
the three sequential column fills factor through a single per-row
function — but the exported coordinate fields are filled from
municipality/county group means (see the counterexample) and the
SPEED_LIMIT feeding the export is filled from a county group mode:
`WrdA` and `WrdB` have identical first rows yet their first filled
speed limits differ, each being the mode of its county group.  So
dataset-wide aggregates are baked into the exported artifact for the
coordinate and speed-limit fields, while the hour fills are
record-local. -/
theorem fills_locality_status :
    (∀ t : List CrashRow, fillHours t = t.map hourFillRow) ∧
    WrdA[0]? = WrdB[0]? ∧
    processRoadway WrdA =
      some [{ crn := 1, speedLimit := 25 }, { crn := 2, speedLimit := 25 }] ∧
    processRoadway WrdB =
      some [{ crn := 1, speedLimit := 35 }, { crn := 2, speedLimit := 35 }] := by
  refine ⟨?_, rfl, by decide, by decide⟩
  intro t
  simp only [fillHours, fillHourFromTOD, fillHourFromDispatch, fillHourFromArrival,
    List.map_map]
  refine List.map_congr_left (fun r _ => ?_)
  simp only [Function.comp]
  rcases hr : r.hourOfDay with _ | h
  · rcases ht : (cellInt r.timeOfDay).map (fun x => Int.fdiv x 100) with _ | h1
    · rcases hd : r.dispatchTm.map (fun x => Int.fdiv x 100) with _ | h2
      · simp [hourFillRow, hr, ht, hd]
      · simp [hourFillRow, hr, ht, hd]
    · simp [hourFillRow, hr, ht]
  · simp [hourFillRow, hr]

/-- Claim C4 (counterexample): a composite-key collision that is not the
single known pre-identified exception does not cause the run to fail.
The colliding table `WcollidePersons` (two persons on the key
`(1, 1)`, at positions far from 35557) passes through the persons
processing with both colliding keys intact, and the downstream join
silently produces a cyclist row for each collider — the run completes
instead of failing loudly. -/
theorem key_collision_not_detected :
    (processPersons WcollidePersons).map (fun p => (p.crn, p.unitNum)) =
      [(1, some (Val.int 1)), (1, some (Val.int 1))] ∧
    (buildCyclists (processPersons WcollidePersons)
        (Wbicycles.map recodeBicycle) []).length = 2 := by
  refine ⟨?_, ?_⟩ <;> decide

/-- Claim C4 (amended): the repair is applied only to the row at position
35557 — every other position of the persons table is untouched by the
repair step, and position 35557 receives UNIT_NUM 2 — while collisions
elsewhere are neither detected nor repaired and the run continues
silently (see the counterexample). -/
theorem unit_num_repair_touches_only_35557 (t : List PersonRow) (i : Nat)
    (h : i ≠ 35557) :
    (repairUnitNum t)[i]? = t[i]? ∧
    (repairUnitNum t)[35557]? =
      (t[35557]?).map (fun p => { p with unitNum := some (Val.int 2) }) :=
  ⟨updateAt_getElem?_ne 35557 _ t i h, updateAt_getElem?_eq 35557 _ t⟩

/-- Witness for the amended claim C4 at a concrete table and position. -/
theorem unit_num_repair_touches_only_35557_witness :
    (0 : Nat) ≠ 35557 ∧
    ((repairUnitNum WcollidePersons)[0]? = WcollidePersons[0]? ∧
      (repairUnitNum WcollidePersons)[35557]? =
        (WcollidePersons[35557]?).map (fun p => { p with unitNum := some (Val.int 2) })) :=
  ⟨by decide, unit_num_repair_touches_only_35557 WcollidePersons 0 (by decide)⟩

/-! ### Lemmas for the speed-limit merge -/

theorem listMin_eq_none_iff (l : List Int) : listMin l = none ↔ l = [] := by
  cases l with
  | nil => simp [listMin]
  | cons x xs =>
    simp only [listMin]
    cases listMin xs <;> simp

theorem crnMin_eq_none_iff (rw : List RoadwaySL) (k : Int) :
    crnMin rw k = none ↔ rw.filter (fun r => r.crn == k) = [] := by
  rw [crnMin, listMin_eq_none_iff, crnSegs, List.map_eq_nil_iff]

theorem filterMap_keyed_filter (g : Int → Option Int) (k : Int) :
    ∀ l : List Int, l.Nodup →
      (l.filterMap (fun x => (g x).map (fun m => (x, m)))).filter (fun p => p.1 == k) =
        if k ∈ l then ((g k).map (fun m => (k, m))).toList else []
  | [], _ => by simp
  | a :: l, h => by
    have ha : a ∉ l := (List.nodup_cons.mp h).1
    have ih := filterMap_keyed_filter g k l (List.nodup_cons.mp h).2
    rw [List.filterMap_cons]
    cases hga : g a with
    | none =>
      rw [Option.map_none']
      by_cases hk : k = a
      · subst hk
        rw [ih, if_neg ha, if_pos (List.mem_cons_self _ _), hga, Option.map_none']
        rfl
      · rw [ih]
        have hiff : k ∈ a :: l ↔ k ∈ l := by
          simp [List.mem_cons, hk]
        exact if_congr hiff.symm rfl rfl
    | some m =>
      rw [Option.map_some', List.filter_cons]
      by_cases hk : k = a
      · subst hk
        have htrue : ((k, m).1 == k) = true := by simp
        rw [htrue, if_pos rfl, ih, if_neg ha, if_pos (List.mem_cons_self _ _), hga,
          Option.map_some']
        rfl
      · have hfalse : ((a, m).1 == k) = false := by
          simp only [beq_eq_false_iff_ne]
          exact fun hc => hk hc.symm
        rw [hfalse]
        simp only [Bool.false_eq_true, if_false]
        rw [ih]
        have hiff : k ∈ a :: l ↔ k ∈ l := by
          simp [List.mem_cons, hk]
        exact if_congr hiff.symm rfl rfl

theorem roadwayAgg_filter (rw : List RoadwaySL) (k : Int) :
    (roadwayAgg rw).filter (fun p => p.1 == k) =
      ((crnMin rw k).map (fun m => (k, m))).toList := by
  rw [roadwayAgg, filterMap_keyed_filter (crnMin rw) k _ (List.nodup_dedup _)]
  by_cases hk : k ∈ (rw.map (fun r => r.crn)).dedup
  · rw [if_pos hk]
  · rw [if_neg hk]
    have hnone : crnMin rw k = none := by
      rw [crnMin_eq_none_iff, List.filter_eq_nil_iff]
      intro r hr hcrn
      exact hk (List.mem_dedup.mpr (List.mem_map.mpr ⟨r, hr, by simpa using hcrn⟩))
    rw [hnone]
    rfl

theorem flatMap_singleton_eq_map {α β : Type} (f : α → List β) (g : α → β)
    (h : ∀ a, f a = [g a]) (l : List α) : l.flatMap f = l.map g := by
  induction l with
  | nil => rfl
  | cons a l ih => rw [List.flatMap_cons, h, ih, List.map_cons, List.singleton_append]

theorem leftMergeSL_pointwise (rw : List RoadwaySL) (c : CrashRow) :
    (let ms := (roadwayAgg rw).filter (fun p => p.1 == c.crn)
      if ms.isEmpty then [finalizeCrash c none]
      else ms.map (fun p => finalizeCrash c (some p.2))) =
      [finalizeCrash c (crnMin rw c.crn)] := by
  simp only [roadwayAgg_filter rw c.crn]
  cases hm : crnMin rw c.crn <;> simp [Option.toList]

/-- Claim C3 (confirmed): the roadway relation is pre-aggregated to one
row per CRN, so the speed-limit merge sends each crash row to exactly
one output row carrying the minimum SPEED_LIMIT over the roadway
segments sharing its CRN — in particular the merge never duplicates
rows, a crash with no segment gets a missing speed limit, and two
segments with limits 25 and 35 yield 25, which the fixture pipeline
carries through to the joined cyclist record. -/
theorem speed_limit_min_merge (t : List CrashRow) (rw : List RoadwaySL) (k : Int)
    (hk : rw.filter (fun r => r.crn == k) = []) :
    leftMergeSL t (roadwayAgg rw) = t.map (fun c => finalizeCrash c (crnMin rw c.crn)) ∧
    crnMin rw k = none ∧
    crnMin WroadSL 1 = some 25 ∧
    (buildCyclists (processPersons Wpersons) (Wbicycles.map recodeBicycle)
        (processCrashes Wcrashes WroadSL)).map (fun r => r.speedLimit) = [some 25] := by
  refine ⟨?_, (crnMin_eq_none_iff rw k).mpr hk, by decide, by decide⟩
  exact flatMap_singleton_eq_map _ _ (leftMergeSL_pointwise rw) t

/-- Witness for claim C3 at concrete tables: a CRN with no segment in the
fixture roadway table. -/
theorem speed_limit_min_merge_witness :
    WroadSL.filter (fun r => r.crn == 9) = [] ∧
    (leftMergeSL Wcrashes (roadwayAgg WroadSL) =
        Wcrashes.map (fun c => finalizeCrash c (crnMin WroadSL c.crn)) ∧
      crnMin WroadSL 9 = none ∧
      crnMin WroadSL 1 = some 25 ∧
      (buildCyclists (processPersons Wpersons) (Wbicycles.map recodeBicycle)
          (processCrashes Wcrashes WroadSL)).map (fun r => r.speedLimit) = [some 25]) :=
  ⟨by decide, speed_limit_min_merge Wcrashes WroadSL 9 (by decide)⟩

/-! ### Provenance lemmas for the cyclist join -/

theorem mem_leftMergePB {ps : List PersonRow} {bs : List BicycleRow} {x : PB}
    (h : x ∈ leftMergePB ps bs) :
    ∃ p ∈ ps, x.crn = p.crn ∧ x.unitNum = p.unitNum ∧ x.injSeverity = p.injSeverity ∧
      x.age = p.age ∧
      (x.vehType = none ∨
        ∃ b ∈ bs, b.crn = p.crn ∧ cellEqBool p.unitNum b.unitNum = true ∧
          x.vehType = b.vehType) := by
  simp only [leftMergePB, List.mem_flatMap] at h
  obtain ⟨p, hp, hx⟩ := h
  by_cases he : (bs.filter (fun b => b.crn == p.crn && cellEqBool p.unitNum b.unitNum)).isEmpty
  · rw [if_pos he, List.mem_singleton] at hx
    subst hx
    exact ⟨p, hp, rfl, rfl, rfl, rfl, Or.inl rfl⟩
  · rw [if_neg he, List.mem_map] at hx
    obtain ⟨b, hb, hx⟩ := hx
    subst hx
    rw [List.mem_filter] at hb
    obtain ⟨hbmem, hcond⟩ := hb
    rw [Bool.and_eq_true] at hcond
    exact ⟨p, hp, rfl, rfl, rfl, rfl,
      Or.inr ⟨b, hbmem, by simpa using hcond.1, hcond.2, rfl⟩⟩

theorem mem_leftMergeCR {xs : List PB} {cs : List CrashFinal} {y : PBC}
    (h : y ∈ leftMergeCR xs cs) :
    ∃ x ∈ xs, y.crn = x.crn ∧ y.unitNum = x.unitNum ∧ y.injSeverity = x.injSeverity ∧
      y.age = x.age ∧ y.vehType = x.vehType ∧
      (((cs.filter (fun c => c.crn == x.crn)).isEmpty = true ∧ y.illumination = none) ∨
        ∃ c ∈ cs, c.crn = x.crn ∧ y.illumination = c.illumination) := by
  simp only [leftMergeCR, List.mem_flatMap] at h
  obtain ⟨x, hx, hy⟩ := h
  by_cases he : (cs.filter (fun c => c.crn == x.crn)).isEmpty
  · rw [if_pos he, List.mem_singleton] at hy
    subst hy
    exact ⟨x, hx, rfl, rfl, rfl, rfl, rfl, Or.inl ⟨he, rfl⟩⟩
  · rw [if_neg he, List.mem_map] at hy
    obtain ⟨c, hc, hy⟩ := hy
    subst hy
    rw [List.mem_filter] at hc
    exact ⟨x, hx, rfl, rfl, rfl, rfl, rfl,
      Or.inr ⟨c, hc.1, by simpa using hc.2, rfl⟩⟩

theorem mem_buildCyclists {ps : List PersonRow} {bs : List BicycleRow}
    {cs : List CrashFinal} {r : CyclistRow} (h : r ∈ buildCyclists ps bs cs) :
    ∃ x ∈ leftMergeCR ((leftMergePB ps bs).filter (fun y => y.vehType.isSome)) cs,
      r = deriveRow (resolveRow x) := by
  simp only [buildCyclists, List.mem_map] at h
  obtain ⟨x, hx, hr⟩ := h
  exact ⟨x, hx, hr.symm⟩

theorem mem_leftMergeSL {t : List CrashRow} {right : List (Int × Int)} {c : CrashFinal}
    (h : c ∈ leftMergeSL t right) : ∃ d ∈ t, ∃ sl, c = finalizeCrash d sl := by
  simp only [leftMergeSL, List.mem_flatMap] at h
  obtain ⟨d, hd, hc⟩ := h
  by_cases he : (right.filter (fun p => p.1 == d.crn)).isEmpty
  · rw [if_pos he, List.mem_singleton] at hc
    exact ⟨d, hd, none, hc⟩
  · rw [if_neg he, List.mem_map] at hc
    obtain ⟨p, _, hc⟩ := hc
    exact ⟨d, hd, some p.2, hc.symm⟩

theorem mem_fillIllumination {t : List CrashRow} {r : CrashRow}
    (h : r ∈ fillIllumination t) : r.illumination ≠ none := by
  simp only [fillIllumination, List.mem_map] at h
  obtain ⟨y, _, rfl⟩ := h
  exact fillCell_ne_none y.illumination (Val.str "daylight")

/-- Behaviour of the target flag on every possible cell value. -/
theorem seriousOrFatalityOf_spec (c : Cell) :
    (seriousOrFatalityOf c = 1 ↔
      (c = some (Val.str "killed") ∨ c = some (Val.str "susp_serious_injury"))) ∧
    (seriousOrFatalityOf c = 0 ↔
      ¬(c = some (Val.str "killed") ∨ c = some (Val.str "susp_serious_injury"))) := by
  rcases c with _ | v
  · simp [seriousOrFatalityOf]
  · rcases v with n | s
    · simp [seriousOrFatalityOf]
    · by_cases hs : s = "killed" ∨ s = "susp_serious_injury"
      · rcases hs with rfl | rfl <;> decide
      · simp [seriousOrFatalityOf, hs]

/-- Claim C1 (confirmed): in every row of the final cyclist entity,
SERIOUS_OR_FATALITY equals 1 exactly when the resolved injury-severity
label of the row is killed or susp_serious_injury, and equals 0 for
every other value including a missing label — the closed-world
default-to-negative policy. -/
theorem serious_or_fatality_flag (ps : List PersonRow) (bs : List BicycleRow)
    (cs : List CrashFinal) (r : CyclistRow) (h : r ∈ buildCyclists ps bs cs) :
    (r.seriousOrFatality = 1 ↔
      (r.injSeverity = some (Val.str "killed") ∨
        r.injSeverity = some (Val.str "susp_serious_injury"))) ∧
    (r.seriousOrFatality = 0 ↔
      ¬(r.injSeverity = some (Val.str "killed") ∨
        r.injSeverity = some (Val.str "susp_serious_injury"))) := by
  obtain ⟨x, _, rfl⟩ := mem_buildCyclists h
  have hflag : (deriveRow (resolveRow x)).seriousOrFatality =
      seriousOrFatalityOf x.injSeverity := rfl
  have hinj : (deriveRow (resolveRow x)).injSeverity = x.injSeverity := rfl
  rw [hflag, hinj]
  exact seriousOrFatalityOf_spec x.injSeverity

/-- Witness for claim C1 at the concrete fixtures: the fixture cyclist is
in the built cyclists table and its flag is governed by the stated
equivalence. -/
theorem serious_or_fatality_flag_witness :
    Wcyclist ∈ buildCyclists (processPersons Wpersons) (Wbicycles.map recodeBicycle)
      (processCrashes Wcrashes WroadSL) ∧
    ((Wcyclist.seriousOrFatality = 1 ↔
      (Wcyclist.injSeverity = some (Val.str "killed") ∨
        Wcyclist.injSeverity = some (Val.str "susp_serious_injury"))) ∧
    (Wcyclist.seriousOrFatality = 0 ↔
      ¬(Wcyclist.injSeverity = some (Val.str "killed") ∨
        Wcyclist.injSeverity = some (Val.str "susp_serious_injury")))) :=
  ⟨by decide,
    serious_or_fatality_flag (processPersons Wpersons) (Wbicycles.map recodeBicycle)
      (processCrashes Wcrashes WroadSL) Wcyclist (by decide)⟩

/-- Claim C7 (confirmed): under the bicycle-filtered input contract of the
data model — every vehicle record of the bicycles table has a missing
vehicle type or a pedal-cycle label — every row of the final cyclist
entity stems from a person record whose composite key `(CRN, UNIT_NUM)`
matched a bicycle record with a non-missing vehicle type in the
pedal-cycle category set, and the row inherits the key of that
person. -/
theorem cyclist_rows_are_pedal_cycle_matches (ps : List PersonRow)
    (bs : List BicycleRow) (cs : List CrashFinal) (r : CyclistRow)
    (hbs : ∀ b ∈ bs, b.vehType = none ∨ b.vehType = some (Val.str "bicycle") ∨
      b.vehType = some (Val.str "other_pedalcycle"))
    (h : r ∈ buildCyclists ps bs cs) :
    ∃ p ∈ ps, ∃ b ∈ bs, b.crn = p.crn ∧ cellEqBool p.unitNum b.unitNum = true ∧
      b.vehType ≠ none ∧
      (b.vehType = some (Val.str "bicycle") ∨
        b.vehType = some (Val.str "other_pedalcycle")) ∧
      r.crn = p.crn ∧ r.unitNum = p.unitNum := by
  obtain ⟨x, hx, rfl⟩ := mem_buildCyclists h
  obtain ⟨pb, hpb, hcrn, hunit, _, _, hvt, _⟩ := mem_leftMergeCR hx
  rw [List.mem_filter] at hpb
  obtain ⟨hpbmem, hsome⟩ := hpb
  obtain ⟨p, hp, pcrn, punit, _, _, hdisj⟩ := mem_leftMergePB hpbmem
  rcases hdisj with hnone | ⟨b, hb, hbcrn, hbunit, hbvt⟩
  · rw [hnone] at hsome
    simp at hsome
  · have hvtne : b.vehType ≠ none := by
      intro hc
      rw [hbvt, hc] at hsome
      simp at hsome
    have hped : b.vehType = some (Val.str "bicycle") ∨
        b.vehType = some (Val.str "other_pedalcycle") := by
      rcases hbs b hb with hbn | hok
      · exact absurd hbn hvtne
      · exact hok
    refine ⟨p, hp, b, hb, hbcrn, hbunit, hvtne, hped, ?_, ?_⟩
    · show x.crn = p.crn
      rw [hcrn, pcrn]
    · show x.unitNum = p.unitNum
      rw [hunit, punit]

/-- Witness for claim C7 at the concrete fixtures. -/
theorem cyclist_rows_are_pedal_cycle_matches_witness :
    ((∀ b ∈ Wbicycles.map recodeBicycle, b.vehType = none ∨
        b.vehType = some (Val.str "bicycle") ∨
        b.vehType = some (Val.str "other_pedalcycle")) ∧
      Wcyclist ∈ buildCyclists (processPersons Wpersons) (Wbicycles.map recodeBicycle)
        (processCrashes Wcrashes WroadSL)) ∧
    (∃ p ∈ processPersons Wpersons, ∃ b ∈ Wbicycles.map recodeBicycle,
      b.crn = p.crn ∧ cellEqBool p.unitNum b.unitNum = true ∧
      b.vehType ≠ none ∧
      (b.vehType = some (Val.str "bicycle") ∨
        b.vehType = some (Val.str "other_pedalcycle")) ∧
      Wcyclist.crn = p.crn ∧ Wcyclist.unitNum = p.unitNum) :=
  ⟨⟨by decide, by decide⟩,
    cyclist_rows_are_pedal_cycle_matches (processPersons Wpersons)
      (Wbicycles.map recodeBicycle) (processCrashes Wcrashes WroadSL) Wcyclist
      (by decide) (by decide)⟩

/-- The concrete exported crash row the pipeline produces from the
fixtures. -/
def WcrashFinal : CrashFinal :=
  { crn := 1, county := 1, municipality := 1, weather := some (Val.str "rain"),
    illumination := some (Val.str "daylight"), roadCondition := some (Val.str "dry"),
    hourOfDay := some 14, decLat := none, decLong := none, speedLimit := some 25 }

/-- Claim C10 (confirmed): in the exported crashes table ILLUMINATION is
never missing — the final daylight fill guarantees it for every row the
crash processing emits — and a joined cyclist row whose CRN has a match
in a crashes table with never-missing illumination also carries a
non-missing ILLUMINATION. -/
theorem illumination_never_missing (cs : List CrashRow) (rw : List RoadwaySL)
    (c : CrashFinal) (hc : c ∈ processCrashes cs rw) (ps : List PersonRow)
    (bs : List BicycleRow) (cf : List CrashFinal) (r : CyclistRow)
    (hIll : ∀ d ∈ cf, d.illumination ≠ none) (hr : r ∈ buildCyclists ps bs cf)
    (hMatch : ∃ d ∈ cf, d.crn = r.crn) :
    c.illumination ≠ none ∧ r.illumination ≠ none := by
  constructor
  · obtain ⟨d, hd, sl, rfl⟩ := mem_leftMergeSL hc
    show d.illumination ≠ none
    exact mem_fillIllumination hd
  · obtain ⟨x, hx, rfl⟩ := mem_buildCyclists hr
    obtain ⟨pb, _, hcrn, _, _, _, _, hdisj⟩ := mem_leftMergeCR hx
    rcases hdisj with ⟨hempty, _⟩ | ⟨d, hd, _, hill⟩
    · obtain ⟨d, hd, hdcrn⟩ := hMatch
      rw [List.isEmpty_iff, List.filter_eq_nil_iff] at hempty
      have hdx : d.crn = pb.crn := by
        have hrx : (deriveRow (resolveRow x)).crn = x.crn := rfl
        rw [hrx] at hdcrn
        rw [hdcrn, hcrn]
      exact absurd (by simpa using hdx) (hempty d hd)
    · have hrill : (deriveRow (resolveRow x)).illumination = x.illumination := rfl
      rw [hrill, hill]
      exact hIll d hd

/-- Witness for claim C10 at the concrete fixtures. -/
theorem illumination_never_missing_witness :
    (WcrashFinal ∈ processCrashes Wcrashes WroadSL ∧
      (∀ d ∈ processCrashes Wcrashes WroadSL, d.illumination ≠ none) ∧
      Wcyclist ∈ buildCyclists (processPersons Wpersons) (Wbicycles.map recodeBicycle)
        (processCrashes Wcrashes WroadSL) ∧
      (∃ d ∈ processCrashes Wcrashes WroadSL, d.crn = Wcyclist.crn)) ∧
    (WcrashFinal.illumination ≠ none ∧ Wcyclist.illumination ≠ none) :=
  ⟨⟨by decide, by decide, by decide, by decide⟩,
    illumination_never_missing Wcrashes WroadSL WcrashFinal (by decide)
      (processPersons Wpersons) (Wbicycles.map recodeBicycle)
      (processCrashes Wcrashes WroadSL) Wcyclist (by decide) (by decide) (by decide)⟩

end BikeSaferPA
